import Mathlib

/-! Verification of the data-cleansing pipeline in `Data_CLEANSING_TP.py`.

The script is a PySpark program: it selects a fixed list of columns from a
tab-separated food-product table, casts the `quantity` column to int, fills
absent (null) values in fixed numeric/text column sets with `0` /
`"undefined"`, drops exact-duplicate rows, and flags per-column outliers with
the `[Q1 - 1.5*IQR, Q3 + 1.5*IQR]` fence computed from `approxQuantile`.  It
then attempts to derive a `main_category` column by splitting
`categories_tags` on `","`, a `nutrition_score = energy_100g - fiber_100g +
sugars_100g` column, and per-category averages of energy, sugars and fiber —
but `categories_tags` and `energy_100g` are not in `columns_to_keep`, so
those three steps reference columns absent from `df_clean` and raise
`AnalysisException` for every input dataset.

Embedding choices:
- A dataframe cell is a `Value`: Spark's SQL null is `Value.null`, integer
  cells are `Value.int`, floating nutrient cells are modelled as exact
  rationals `Value.num`, text cells are `Value.str`.
- A row of the selected dataframe (`df_filtered`, the projection of the CSV
  onto `columns_to_keep`, lines 35-60) is a `Record` with one field per kept
  column; a dataset is a `List Record`.  The projection step
  `df_csv.select([col for col in columns_to_keep if col in df_csv.columns])`
  is the identity on records that already carry exactly the kept columns, so
  the cleaning pipeline is modelled from that point on.
- `approxQuantile(column, [0.25, 0.75], 0.01)` is a library call whose two
  results are modelled as parameters `q1 q3`; Spark's Greenwald-Khanna sketch
  always returns values attained in the (non-null part of the) column, which
  is the hypothesis used where a claim needs it.
- Spark analyzes a plan before running it: every `col(name)` is resolved
  against the dataframe's schema, and an unresolvable name raises
  `AnalysisException` at analysis time.  `columnOf` models that resolution
  against `df_clean`'s schema, and the dataframe operations of lines 109, 124
  and 127-131 return `Option` values whose `none` is the raised exception;
  the cell-level expression semantics (`main_category`, `nutrition_score`,
  `sparkAvg`) are only ever applied under a successful resolution.
-/

namespace DataCleansing

/-- A cell of the Spark dataframe: SQL null, an integer, a (rational-modelled)
double, or a string. -/
inductive Value where
  | null : Value
  | int (n : Int) : Value
  | num (q : ℚ) : Value
  | str (s : String) : Value
deriving DecidableEq

/-- The columns retained by the script (`columns_to_keep`, lines 35-57 of
`Data_CLEANSING_TP.py`).  Hyphens of the source names are rendered as
underscores; `colName` restores the exact source spelling. -/
inductive Column where
  | product_name | categories | ingredients_text | allergens | traces
  | quantity | serving_size | serving_quantity
  | nutriscore_score | nutriscore_grade | nova_group
  | ecoscore_score | ecoscore_grade
  | energy_kj_100g | energy_kcal_100g
  | sugars_100g | fiber_100g | proteins_100g | salt_100g
  | fat_100g | saturated_fat_100g
deriving DecidableEq

/-- The exact column-name strings of the source. -/
def colName : Column → String
  | Column.product_name => "product_name"
  | Column.categories => "categories"
  | Column.ingredients_text => "ingredients_text"
  | Column.allergens => "allergens"
  | Column.traces => "traces"
  | Column.quantity => "quantity"
  | Column.serving_size => "serving_size"
  | Column.serving_quantity => "serving_quantity"
  | Column.nutriscore_score => "nutriscore_score"
  | Column.nutriscore_grade => "nutriscore_grade"
  | Column.nova_group => "nova_group"
  | Column.ecoscore_score => "ecoscore_score"
  | Column.ecoscore_grade => "ecoscore_grade"
  | Column.energy_kj_100g => "energy-kj_100g"
  | Column.energy_kcal_100g => "energy-kcal_100g"
  | Column.sugars_100g => "sugars_100g"
  | Column.fiber_100g => "fiber_100g"
  | Column.proteins_100g => "proteins_100g"
  | Column.salt_100g => "salt_100g"
  | Column.fat_100g => "fat_100g"
  | Column.saturated_fat_100g => "saturated-fat_100g"

/-- The list `columns_to_keep` (lines 35-57), in source order. -/
def columns_to_keep : List Column :=
  [Column.product_name, Column.categories, Column.ingredients_text,
   Column.allergens, Column.traces, Column.quantity, Column.serving_size,
   Column.serving_quantity, Column.nutriscore_score, Column.nutriscore_grade,
   Column.nova_group, Column.ecoscore_score, Column.ecoscore_grade,
   Column.energy_kj_100g, Column.energy_kcal_100g, Column.sugars_100g,
   Column.fiber_100g, Column.proteins_100g, Column.salt_100g,
   Column.fat_100g, Column.saturated_fat_100g]

/-- A row of `df_filtered`: one `Value` per kept column. -/
structure Record where
  product_name : Value
  categories : Value
  ingredients_text : Value
  allergens : Value
  traces : Value
  quantity : Value
  serving_size : Value
  serving_quantity : Value
  nutriscore_score : Value
  nutriscore_grade : Value
  nova_group : Value
  ecoscore_score : Value
  ecoscore_grade : Value
  energy_kj_100g : Value
  energy_kcal_100g : Value
  sugars_100g : Value
  fiber_100g : Value
  proteins_100g : Value
  salt_100g : Value
  fat_100g : Value
  saturated_fat_100g : Value
deriving DecidableEq

/-- Column access on a record. -/
def getCol (r : Record) : Column → Value
  | Column.product_name => r.product_name
  | Column.categories => r.categories
  | Column.ingredients_text => r.ingredients_text
  | Column.allergens => r.allergens
  | Column.traces => r.traces
  | Column.quantity => r.quantity
  | Column.serving_size => r.serving_size
  | Column.serving_quantity => r.serving_quantity
  | Column.nutriscore_score => r.nutriscore_score
  | Column.nutriscore_grade => r.nutriscore_grade
  | Column.nova_group => r.nova_group
  | Column.ecoscore_score => r.ecoscore_score
  | Column.ecoscore_grade => r.ecoscore_grade
  | Column.energy_kj_100g => r.energy_kj_100g
  | Column.energy_kcal_100g => r.energy_kcal_100g
  | Column.sugars_100g => r.sugars_100g
  | Column.fiber_100g => r.fiber_100g
  | Column.proteins_100g => r.proteins_100g
  | Column.salt_100g => r.salt_100g
  | Column.fat_100g => r.fat_100g
  | Column.saturated_fat_100g => r.saturated_fat_100g

/-- The numeric fill list of `na.fill(0, [...])` (lines 63-67). -/
def zero_fill_columns : List Column :=
  [Column.quantity, Column.serving_quantity, Column.energy_kj_100g,
   Column.energy_kcal_100g, Column.fat_100g, Column.saturated_fat_100g,
   Column.sugars_100g, Column.fiber_100g, Column.proteins_100g,
   Column.salt_100g]

/-- The text fill list of `na.fill("undefined", [...])` (lines 68-71). -/
def string_fill_columns : List Column :=
  [Column.product_name, Column.categories, Column.ingredients_text,
   Column.allergens, Column.traces, Column.nutriscore_grade,
   Column.ecoscore_grade]

/-- The list `numeric_columns` scanned for outliers (lines 78-82), in source order. -/
def numeric_columns : List Column :=
  [Column.quantity, Column.serving_quantity, Column.nutriscore_score,
   Column.ecoscore_score, Column.energy_kj_100g, Column.energy_kcal_100g,
   Column.sugars_100g, Column.fiber_100g, Column.proteins_100g,
   Column.salt_100g, Column.fat_100g, Column.saturated_fat_100g]

/-- Spark coerces the fill constant `0` of `na.fill` to the column's type:
`quantity` was just cast to int, the other filled nutrient columns are
doubles. -/
def numericZero : Column → Value
  | Column.quantity => Value.int 0
  | _ => Value.num 0

/-- Spark's `na.fill`: replace a null cell by the fill constant, keep any other cell. -/
def fillNull (z : Value) (v : Value) : Value :=
  if v = Value.null then z else v

/-- Spark's truncation of a double towards zero when cast to int. -/
def ratTrunc (q : ℚ) : Int :=
  if q < 0 then ⌈q⌉ else ⌊q⌋

/-- The numeric value of a decimal digit character, none for a non-digit. -/
def digit? (c : Char) : Option Nat :=
  if 48 ≤ c.toNat ∧ c.toNat ≤ 57 then some (c.toNat - 48) else none

/-- Accumulate a decimal digit string into a number; none on any non-digit. -/
def parseDigits : List Char → Nat → Option Nat
  | [], acc => some acc
  | c :: cs, acc =>
      match digit? c with
      | some d => parseDigits cs (10 * acc + d)
      | none => none

/-- Spark's string-to-int parse (`UTF8String.toInt`): an optional sign
followed by at least one decimal digit, anything else fails.  (The 32-bit
overflow check is not modelled; no claim depends on it.) -/
def sparkStringToInt (s : String) : Option Int :=
  match s.toList with
  | [] => none
  | '-' :: cs => if cs = [] then none else (parseDigits cs 0).map fun n => -(n : Int)
  | '+' :: cs => if cs = [] then none else (parseDigits cs 0).map fun n => (n : Int)
  | cs => (parseDigits cs 0).map fun n => (n : Int)

/-- The cast `col("quantity").cast("int")` (line 61): null stays null, ints are kept,
doubles truncate towards zero, strings parse as an optionally signed decimal
integer and otherwise become null (Spark's non-ANSI cast swallows the parse
failure). -/
def castInt : Value → Value
  | Value.null => Value.null
  | Value.int n => Value.int n
  | Value.num q => Value.int (ratTrunc q)
  | Value.str s =>
      match sparkStringToInt s with
      | some n => Value.int n
      | none => Value.null

/-- One row of `df_clean` (lines 60-72) before duplicate removal: project to
the kept columns (the identity here, see the header comment), cast `quantity`
to int, zero-fill the numeric list, `"undefined"`-fill the text list.  The
columns `serving_size`, `nutriscore_score`, `nova_group` and `ecoscore_score`
are in neither fill list and pass through untouched. -/
def cleanRecord (r : Record) : Record where
  product_name := fillNull (Value.str "undefined") r.product_name
  categories := fillNull (Value.str "undefined") r.categories
  ingredients_text := fillNull (Value.str "undefined") r.ingredients_text
  allergens := fillNull (Value.str "undefined") r.allergens
  traces := fillNull (Value.str "undefined") r.traces
  quantity := fillNull (Value.int 0) (castInt r.quantity)
  serving_size := r.serving_size
  serving_quantity := fillNull (Value.num 0) r.serving_quantity
  nutriscore_score := r.nutriscore_score
  nutriscore_grade := fillNull (Value.str "undefined") r.nutriscore_grade
  nova_group := r.nova_group
  ecoscore_score := r.ecoscore_score
  ecoscore_grade := fillNull (Value.str "undefined") r.ecoscore_grade
  energy_kj_100g := fillNull (Value.num 0) r.energy_kj_100g
  energy_kcal_100g := fillNull (Value.num 0) r.energy_kcal_100g
  sugars_100g := fillNull (Value.num 0) r.sugars_100g
  fiber_100g := fillNull (Value.num 0) r.fiber_100g
  proteins_100g := fillNull (Value.num 0) r.proteins_100g
  salt_100g := fillNull (Value.num 0) r.salt_100g
  fat_100g := fillNull (Value.num 0) r.fat_100g
  saturated_fat_100g := fillNull (Value.num 0) r.saturated_fat_100g

/-- The cleaning `df_clean` (lines 63-72): per-row cast and fills, then `dropDuplicates()`
(exact-duplicate removal; Spark guarantees no row order, so the dataset is
read up to its list of distinct rows and `List.dedup` realises the removal). -/
def df_clean (D : List Record) : List Record :=
  (D.map cleanRecord).dedup

/-- The numeric reading of a cell, as used by Spark when a numeric column is
compared, summed or averaged: ints and doubles are numbers, null (and any
non-numeric cell) is not. -/
def toNum : Value → Option ℚ
  | Value.int n => some (n : ℚ)
  | Value.num q => some q
  | _ => none

/-- The non-null numeric values attained in one column of a dataset — the
sample `approxQuantile` estimates its quantiles from. -/
def colVals (D : List Record) (c : Column) : List ℚ :=
  D.filterMap fun r => toNum (getCol r c)

/-- The outlier filter of lines 86-93 for one column, with the two results of
`approxQuantile(column, [0.25, 0.75], 0.01)` as parameters `q1 q3`:
`iqr = q3 - q1`, `lower_bound = q1 - 1.5*iqr`, `upper_bound = q3 + 1.5*iqr`,
and `df_clean.filter((col(column) < lower_bound) | (col(column) > upper_bound))`.
Spark's three-valued logic drops a row whose cell is null: both comparisons
(hence their disjunction) evaluate to null, and `filter` keeps only rows where
the predicate is true. -/
def outliersFor (D : List Record) (c : Column) (q1 q3 : ℚ) : List Record :=
  let iqr := q3 - q1
  let lower_bound := q1 - 1.5 * iqr
  let upper_bound := q3 + 1.5 * iqr
  D.filter fun r =>
    match toNum (getCol r c) with
    | some v => decide (v < lower_bound ∨ v > upper_bound)
    | none => false

/-- The split expression of line 109, `split(col(...), ",").getItem(0)`, as a
function on the cell it would be applied to: Spark's `split` null-propagates,
and on a string splits on the separator keeping trailing empty fields (Java
regex split with limit -1), which on the character list is `List.splitOn ','`;
`getItem(0)` takes the first field (`split` never returns an empty array:
splitting `""` gives `[""]`).  Whether the expression is evaluated at all is
decided by column resolution first — see `withColumnMainCategory`. -/
def main_category : Value → Value
  | Value.str s => Value.str (((List.splitOn ',' s.toList).map String.mk).headD "")
  | _ => Value.null

/-- The score expression of line 124,
`col("energy_100g") - col("fiber_100g") + col("sugars_100g")`, as a function
of the three cells it would read: Spark arithmetic null-propagates, and on
numbers it is the exact linear combination.  Whether the expression is
evaluated at all is decided by column resolution first — see
`withColumnNutritionScore`. -/
def nutrition_score (energy fiber sugars : Value) : Value :=
  match toNum energy, toNum fiber, toNum sugars with
  | some e, some f, some s => Value.num (e - f + s)
  | _, _, _ => Value.null

/-- Spark's `avg` aggregate: the arithmetic mean of the non-null values of the
column, null when the group has no non-null value. -/
def sparkAvg (vs : List Value) : Value :=
  let qs := vs.filterMap toNum
  if qs = [] then Value.null else Value.num (qs.sum / qs.length)

/-- The column-name schema of `df_clean`: the select at line 60 keeps exactly
the columns of `columns_to_keep` (all present in the openfoodfacts CSV), and
neither `withColumn("quantity", ...)` nor the fills nor `dropDuplicates()`
adds or removes a column. -/
def df_clean_schema : List String :=
  columns_to_keep.map colName

/-- Spark's analyzer resolves every column reference `col(name)` against the
dataframe's schema before executing a plan; a name outside the schema raises
`AnalysisException` at analysis time, before any row is read.  `some c` models
successful resolution to the retained column `c`, `none` models the raised
exception. -/
def columnOf (name : String) : Option Column :=
  columns_to_keep.find? fun c => colName c = name

/-- Line 109,
`df_clean.withColumn("main_category", split(col("categories_tags"), ",").getItem(0))`:
the analyzer first resolves `categories_tags` against the schema of
`df_clean`; on success every row would be extended with the `main_category`
cell computed by the split expression.  `df_clean`'s columns are exactly
`columns_to_keep`, which omits `categories_tags` (only `categories` is kept),
so resolution fails and the operation raises `AnalysisException` (`none`) for
every input dataset — the script dies here and lines 111-132 never run. -/
def withColumnMainCategory (D : List Record) : Option (List (Record × Value)) :=
  (columnOf "categories_tags").map fun c =>
    D.map fun r => (r, main_category (getCol r c))

/-- Line 124, `df_clean.withColumn("nutrition_score",
col("energy_100g") - col("fiber_100g") + col("sugars_100g"))`: all three
column references are resolved against the schema first; `energy_100g` is not
a retained column (only `energy-kj_100g` and `energy-kcal_100g` are), so the
operation raises `AnalysisException` (`none`) for every dataset and the score
expression is never evaluated on any row. -/
def withColumnNutritionScore (D : List Record) : Option (List (Record × Value)) :=
  match columnOf "energy_100g", columnOf "fiber_100g", columnOf "sugars_100g" with
  | some ce, some cf, some cs =>
      some (D.map fun r => (r, nutrition_score (getCol r ce) (getCol r cf) (getCol r cs)))
  | _, _, _ => none

/-- Lines 127-131, `df_clean.groupBy("main_category").agg(avg("energy_100g"),
avg("sugars_100g"), avg("fiber_100g"))`: the group key and the three
aggregated columns are resolved against the dataframe's schema; on success
the result would have one row per distinct key with the null-ignoring means
(`sparkAvg`) of the three columns over the key's group.  On `df_clean` both
`main_category` (its creation at line 109 already raises) and `energy_100g`
are unresolvable, so the aggregation raises `AnalysisException` (`none`) and
no average row is ever produced. -/
def statsAggregation (D : List Record) : Option (List (Value × Value × Value × Value)) :=
  match columnOf "main_category", columnOf "energy_100g",
      columnOf "sugars_100g", columnOf "fiber_100g" with
  | some ck, some ce, some cs, some cf =>
      some (((D.map fun r => getCol r ck).dedup).map fun k =>
        let g := D.filter fun r => getCol r ck = k
        (k, sparkAvg (g.map fun r => getCol r ce),
         sparkAvg (g.map fun r => getCol r cs),
         sparkAvg (g.map fun r => getCol r cf)))
  | _, _, _, _ => none

/-! ### Helper lemmas -/

lemma fillNull_null (z : Value) : fillNull z Value.null = z := rfl

lemma fillNull_ne_null {z : Value} (hz : z ≠ Value.null) (v : Value) :
    fillNull z v ≠ Value.null := by
  unfold fillNull
  split
  · exact hz
  · assumption

lemma fillNull_of_ne {v : Value} (z : Value) (hv : v ≠ Value.null) :
    fillNull z v = v := if_neg hv

lemma castInt_null_or_int (v : Value) :
    castInt v = Value.null ∨ ∃ n : Int, castInt v = Value.int n := by
  cases v with
  | null => exact Or.inl rfl
  | int n => exact Or.inr ⟨n, rfl⟩
  | num q => exact Or.inr ⟨ratTrunc q, rfl⟩
  | str s =>
      cases h : sparkStringToInt s with
      | none => exact Or.inl (by simp [castInt, h])
      | some n => exact Or.inr ⟨n, by simp [castInt, h]⟩

lemma quantity_clean_int (v : Value) :
    ∃ n : Int, fillNull (Value.int 0) (castInt v) = Value.int n := by
  rcases castInt_null_or_int v with h | ⟨n, h⟩
  · exact ⟨0, by rw [h, fillNull_null]⟩
  · exact ⟨n, by rw [h, fillNull_of_ne _ (by simp)]⟩

lemma fillNull_num_idem (v : Value) :
    fillNull (Value.num 0) (fillNull (Value.num 0) v) = fillNull (Value.num 0) v := by
  by_cases h : v = Value.null
  · subst h; rfl
  · rw [fillNull_of_ne _ h, fillNull_of_ne _ h]

lemma fillNull_str_idem (v : Value) :
    fillNull (Value.str "undefined") (fillNull (Value.str "undefined") v) =
      fillNull (Value.str "undefined") v := by
  by_cases h : v = Value.null
  · subst h; rfl
  · rw [fillNull_of_ne _ h, fillNull_of_ne _ h]

lemma quantity_clean_idem (v : Value) :
    fillNull (Value.int 0) (castInt (fillNull (Value.int 0) (castInt v))) =
      fillNull (Value.int 0) (castInt v) := by
  obtain ⟨n, h⟩ := quantity_clean_int v
  rw [h]
  show fillNull (Value.int 0) (castInt (Value.int n)) = Value.int n
  rw [show castInt (Value.int n) = Value.int n from rfl, fillNull_of_ne _ (by simp)]

lemma cleanRecord_idem (r : Record) :
    cleanRecord (cleanRecord r) = cleanRecord r := by
  simp only [cleanRecord, fillNull_str_idem, fillNull_num_idem, quantity_clean_idem]

lemma mem_df_clean {D : List Record} {r : Record} :
    r ∈ df_clean D ↔ ∃ r0 ∈ D, r = cleanRecord r0 := by
  unfold df_clean
  rw [List.mem_dedup, List.mem_map]
  constructor
  · rintro ⟨r0, h0, rfl⟩; exact ⟨r0, h0, rfl⟩
  · rintro ⟨r0, h0, rfl⟩; exact ⟨r0, h0, rfl⟩

lemma cleanRecord_fill_ne_null (r0 : Record) (c : Column)
    (hc : c ∈ zero_fill_columns ∨ c ∈ string_fill_columns) :
    getCol (cleanRecord r0) c ≠ Value.null := by
  have hz : (Value.int 0 : Value) ≠ Value.null := by simp
  have hn : (Value.num 0 : Value) ≠ Value.null := by simp
  have hs : (Value.str "undefined" : Value) ≠ Value.null := by simp
  rcases hc with hc | hc <;>
    · simp only [zero_fill_columns, string_fill_columns, List.mem_cons,
        List.not_mem_nil, or_false] at hc
      rcases hc with rfl | rfl | rfl | rfl | rfl | rfl | rfl | rfl | rfl | rfl <;>
        first
          | exact fillNull_ne_null hz _
          | exact fillNull_ne_null hn _
          | exact fillNull_ne_null hs _

/-- A record with every cell absent. -/
def nullRecord : Record where
  product_name := Value.null
  categories := Value.null
  ingredients_text := Value.null
  allergens := Value.null
  traces := Value.null
  quantity := Value.null
  serving_size := Value.null
  serving_quantity := Value.null
  nutriscore_score := Value.null
  nutriscore_grade := Value.null
  nova_group := Value.null
  ecoscore_score := Value.null
  ecoscore_grade := Value.null
  energy_kj_100g := Value.null
  energy_kcal_100g := Value.null
  sugars_100g := Value.null
  fiber_100g := Value.null
  proteins_100g := Value.null
  salt_100g := Value.null
  fat_100g := Value.null
  saturated_fat_100g := Value.null

lemma outlier_mem_iff {D : List Record} {c : Column} {q1 q3 : ℚ} {r : Record} :
    r ∈ outliersFor D c q1 q3 ↔
      r ∈ D ∧ ∃ v : ℚ, toNum (getCol r c) = some v ∧
        (v < q1 - 1.5 * (q3 - q1) ∨ v > q3 + 1.5 * (q3 - q1)) := by
  simp only [outliersFor, List.mem_filter]
  cases h : toNum (getCol r c) with
  | none => simp [h]
  | some v => simp [h]

/-- A record whose only present cell is `nutriscore_score`. -/
def scoreRecord (v : Value) : Record :=
  { nullRecord with nutriscore_score := v }

/-! ### Claim theorems -/

/-- C1: the program never computes the claimed values — `categories_tags` is
not a retained column (the select at line 60 keeps `categories`, not
`categories_tags`), so the analyzer fails to resolve the column reference of
line 109 and the `withColumn` raises `AnalysisException` for every dataset;
no `main_category` cell — `"beverages"`, `""` or otherwise — is ever derived,
even though the split expression itself computes exactly what the claim
describes on the cell it would have read. -/
theorem C1_main_category_analysis_exception :
    (∀ D : List Record, withColumnMainCategory D = none) ∧
    columnOf "categories_tags" = none ∧
    "categories_tags" ∉ df_clean_schema ∧
    columnOf "categories" = some Column.categories ∧
    main_category (Value.str "beverages,soda,sugary-drinks") = Value.str "beverages" := by
  exact ⟨fun D => rfl, by decide, by decide, by decide, by decide⟩

/-- C2: the program never evaluates the claimed formula — `energy_100g` is not
a retained column (only `energy-kj_100g` and `energy-kcal_100g` are kept), so
line 124 raises `AnalysisException` for every dataset; the score expression
itself does compute `energy - fiber + sugars` (115 at (100, 5, 20)) on the
cells it would have read, and `fiber_100g`/`sugars_100g` do resolve. -/
theorem C2_nutrition_score_analysis_exception :
    (∀ D : List Record, withColumnNutritionScore D = none) ∧
    columnOf "energy_100g" = none ∧
    "energy_100g" ∉ df_clean_schema ∧
    columnOf "fiber_100g" = some Column.fiber_100g ∧
    columnOf "sugars_100g" = some Column.sugars_100g ∧
    nutrition_score (Value.num 100) (Value.num 5) (Value.num 20) = Value.num 115 := by
  refine ⟨fun D => rfl, by decide, by decide, by decide, by decide, ?_⟩
  show Value.num (100 - 5 + 20) = Value.num 115
  norm_num

/-- C9: a `quantity` cell whose integer cast fails becomes the absent marker
(no error is raised), the zero-fill then turns it into `0`, and on every
cleaned record `quantity` holds an integer. -/
theorem C9_quantity_cast_failure :
    (∀ s : String, sparkStringToInt s = none → castInt (Value.str s) = Value.null) ∧
    (∀ r : Record, castInt (getCol r Column.quantity) = Value.null →
        getCol (cleanRecord r) Column.quantity = Value.int 0) ∧
    (∀ D : List Record, ∀ r ∈ df_clean D,
        ∃ n : Int, getCol r Column.quantity = Value.int n) := by
  refine ⟨?_, ?_, ?_⟩
  · intro s hs
    simp [castInt, hs]
  · intro r h
    show fillNull (Value.int 0) (castInt r.quantity) = Value.int 0
    rw [show castInt r.quantity = Value.null from h, fillNull_null]
  · intro D r hr
    obtain ⟨r0, _, rfl⟩ := mem_df_clean.mp hr
    exact quantity_clean_int r0.quantity

/-- A record whose `quantity` cell is the unparsable string `"500g"`. -/
def badQuantityRecord : Record :=
  { nullRecord with quantity := Value.str "500g" }

/-- C9, witness: `"500g"` fails the cast and ends up as the integer `0`. -/
theorem C9_quantity_cast_failure_witness :
    castInt (Value.str "500g") = Value.null ∧
    getCol (cleanRecord badQuantityRecord) Column.quantity = Value.int 0 ∧
    (∃ n : Int, getCol (cleanRecord badQuantityRecord) Column.quantity = Value.int n) :=
  ⟨C9_quantity_cast_failure.1 "500g" rfl,
   C9_quantity_cast_failure.2.1 badQuantityRecord (by decide),
   C9_quantity_cast_failure.2.2 [badQuantityRecord] (cleanRecord badQuantityRecord)
     (by decide)⟩

/-- C10: the strict bound comparisons of the outlier filter evaluate to null
on a null cell and the row is dropped, so a record whose value in the scanned
column is absent is never in that column's outlier set — in particular for
the two scanned columns outside the zero-fill list (`nutriscore_score` and
`ecoscore_score`), the only numeric columns where absences survive cleaning. -/
theorem C10_null_never_outlier :
    (Column.nutriscore_score ∈ numeric_columns ∧
      Column.nutriscore_score ∉ zero_fill_columns) ∧
    (Column.ecoscore_score ∈ numeric_columns ∧
      Column.ecoscore_score ∉ zero_fill_columns) ∧
    ∀ (D : List Record) (c : Column) (q1 q3 : ℚ) (r : Record),
      getCol r c = Value.null → r ∉ outliersFor D c q1 q3 := by
  refine ⟨by decide, by decide, ?_⟩
  intro D c q1 q3 r hnull hmem
  simp only [outliersFor] at hmem
  have hpred := (List.mem_filter.mp hmem).2
  rw [hnull] at hpred
  simp [toNum] at hpred

/-- C10, witness: the all-null record is not flagged for `nutriscore_score`. -/
theorem C10_null_never_outlier_witness :
    nullRecord ∉ outliersFor [nullRecord] Column.nutriscore_score 0 0 :=
  C10_null_never_outlier.2.2 [nullRecord] Column.nutriscore_score 0 0 nullRecord rfl

/-- C3, counterexample: `nutriscore_score` is a retained column, yet on the
all-null record it is still the absent marker after cleaning — the fill step
only covers the two fixed fill lists, not every retained column. -/
theorem C3_unfilled_column_counterexample :
    Column.nutriscore_score ∈ columns_to_keep ∧
    cleanRecord nullRecord ∈ df_clean [nullRecord] ∧
    getCol (cleanRecord nullRecord) Column.nutriscore_score = Value.null := by
  refine ⟨by decide, by decide, rfl⟩

/-- C3 (amended): after cleaning every retained column exists on every record,
and the retained columns split into the zero-fill list, the text-fill list and
the four pass-through columns `serving_size`, `nutriscore_score`, `nova_group`
and `ecoscore_score`; no absent marker survives in the two fill lists, while a
pass-through column keeps its original cell (absent or not). -/
theorem C3_fill_lists_amended :
    (∀ c ∈ columns_to_keep,
        c ∈ zero_fill_columns ∨ c ∈ string_fill_columns ∨
        c = Column.serving_size ∨ c = Column.nutriscore_score ∨
        c = Column.nova_group ∨ c = Column.ecoscore_score) ∧
    (∀ D : List Record, ∀ r ∈ df_clean D,
        ∀ c, c ∈ zero_fill_columns ∨ c ∈ string_fill_columns →
          getCol r c ≠ Value.null) ∧
    (∀ r0 : Record,
        getCol (cleanRecord r0) Column.serving_size = getCol r0 Column.serving_size ∧
        getCol (cleanRecord r0) Column.nutriscore_score = getCol r0 Column.nutriscore_score ∧
        getCol (cleanRecord r0) Column.nova_group = getCol r0 Column.nova_group ∧
        getCol (cleanRecord r0) Column.ecoscore_score = getCol r0 Column.ecoscore_score) := by
  refine ⟨by decide, ?_, fun r0 => ⟨rfl, rfl, rfl, rfl⟩⟩
  intro D r hr c hc
  obtain ⟨r0, _, rfl⟩ := mem_df_clean.mp hr
  exact cleanRecord_fill_ne_null r0 c hc

/-- C3, witness: on the cleaned all-null record the fill-listed column
`sugars_100g` is no longer absent. -/
theorem C3_fill_lists_witness :
    getCol (cleanRecord nullRecord) Column.sugars_100g ≠ Value.null :=
  C3_fill_lists_amended.2.1 [nullRecord] (cleanRecord nullRecord) (by decide)
    Column.sugars_100g (Or.inl (by decide))

/-- C4: an absent cell in a zero-fill-list column becomes the numeric `0` of
the column's type, an absent cell in a text-fill-list column becomes
`"undefined"`, and on cleaned records no cell of either fill list is the
absent marker. -/
theorem C4_fill_replacement :
    (∀ (r0 : Record), ∀ c ∈ zero_fill_columns,
        getCol r0 c = Value.null → getCol (cleanRecord r0) c = numericZero c) ∧
    (∀ (r0 : Record), ∀ c ∈ string_fill_columns,
        getCol r0 c = Value.null → getCol (cleanRecord r0) c = Value.str "undefined") ∧
    (∀ D : List Record, ∀ r ∈ df_clean D,
        ∀ c, c ∈ zero_fill_columns ∨ c ∈ string_fill_columns →
          getCol r c ≠ Value.null) := by
  refine ⟨?_, ?_, ?_⟩
  · intro r0 c hc hnull
    simp only [zero_fill_columns, List.mem_cons, List.not_mem_nil, or_false] at hc
    rcases hc with rfl | rfl | rfl | rfl | rfl | rfl | rfl | rfl | rfl | rfl <;>
      · simp only [getCol] at hnull ⊢
        simp only [cleanRecord]
        rw [hnull]
        rfl
  · intro r0 c hc hnull
    simp only [string_fill_columns, List.mem_cons, List.not_mem_nil, or_false] at hc
    rcases hc with rfl | rfl | rfl | rfl | rfl | rfl | rfl <;>
      · simp only [getCol] at hnull ⊢
        simp only [cleanRecord]
        rw [hnull]
        rfl
  · intro D r hr c hc
    obtain ⟨r0, _, rfl⟩ := mem_df_clean.mp hr
    exact cleanRecord_fill_ne_null r0 c hc

/-- C4, witness: the fills at the all-null record. -/
theorem C4_fill_replacement_witness :
    getCol (cleanRecord nullRecord) Column.sugars_100g = numericZero Column.sugars_100g ∧
    getCol (cleanRecord nullRecord) Column.product_name = Value.str "undefined" ∧
    getCol (cleanRecord nullRecord) Column.salt_100g ≠ Value.null :=
  ⟨C4_fill_replacement.1 nullRecord Column.sugars_100g (by decide) rfl,
   C4_fill_replacement.2.1 nullRecord Column.product_name (by decide) rfl,
   C4_fill_replacement.2.2 [nullRecord] (cleanRecord nullRecord) (by decide)
     Column.salt_100g (Or.inl (by decide))⟩

/-- C6: with `q1 q3` standing for the two `approxQuantile` estimates (whose
rank error is at most the requested 0.01 and which Spark returns in
nondecreasing order), a record is in a column's outlier set iff its value in
that column is present and strictly below `q1 - 1.5*IQR` or strictly above
`q3 + 1.5*IQR`; a value equal to either bound is not an outlier. -/
theorem C6_outlier_membership :
    (∀ (D : List Record) (c : Column) (q1 q3 : ℚ) (r : Record),
        r ∈ outliersFor D c q1 q3 ↔
          r ∈ D ∧ ∃ v : ℚ, toNum (getCol r c) = some v ∧
            (v < q1 - 1.5 * (q3 - q1) ∨ v > q3 + 1.5 * (q3 - q1))) ∧
    (∀ (D : List Record) (c : Column) (q1 q3 : ℚ) (r : Record) (v : ℚ),
        q1 ≤ q3 → toNum (getCol r c) = some v →
        (v = q1 - 1.5 * (q3 - q1) ∨ v = q3 + 1.5 * (q3 - q1)) →
        r ∉ outliersFor D c q1 q3) := by
  refine ⟨fun D c q1 q3 r => outlier_mem_iff, ?_⟩
  intro D c q1 q3 r v hq hv hbound hmem
  obtain ⟨-, v', hv', hlt⟩ := outlier_mem_iff.mp hmem
  rw [hv] at hv'
  obtain rfl : v = v' := Option.some.inj hv'
  rcases hbound with rfl | rfl <;> rcases hlt with h | h <;> linarith

/-- C6, witness: for `q1 = 0, q3 = 2` the fences are `[-3, 5]`: a
`nutriscore_score` of 100 is flagged, a score sitting exactly on the lower
fence `-3` is not. -/
theorem C6_outlier_membership_witness :
    scoreRecord (Value.num 100) ∈
      outliersFor [scoreRecord (Value.num 100)] Column.nutriscore_score 0 2 ∧
    scoreRecord (Value.num (-3)) ∉
      outliersFor [scoreRecord (Value.num (-3))] Column.nutriscore_score 0 2 :=
  ⟨(C6_outlier_membership.1 [scoreRecord (Value.num 100)] Column.nutriscore_score 0 2
      (scoreRecord (Value.num 100))).mpr
      ⟨by decide, 100, rfl, Or.inr (by norm_num)⟩,
   C6_outlier_membership.2 [scoreRecord (Value.num (-3))] Column.nutriscore_score 0 2
      (scoreRecord (Value.num (-3))) (-3) (by norm_num) rfl (Or.inl (by norm_num))⟩

/-- C7: when the two quantile estimates coincide (IQR = 0) both fences
collapse to `q1`, so any record with a present differing value is flagged;
and when all values of the column are identical the estimates — which
`approxQuantile` draws from the values attained in the column — equal that
value, so the outlier set is empty. -/
theorem C7_degenerate_iqr :
    (∀ (D : List Record) (c : Column) (q1 q3 : ℚ) (r : Record) (v : ℚ),
        q3 - q1 = 0 → r ∈ D → toNum (getCol r c) = some v → v ≠ q1 →
        r ∈ outliersFor D c q1 q3) ∧
    (∀ (D : List Record) (c : Column) (q1 q3 : ℚ) (v0 : Value) (q : ℚ),
        (∀ r ∈ D, getCol r c = v0) → toNum v0 = some q →
        q1 ∈ colVals D c → q3 ∈ colVals D c →
        outliersFor D c q1 q3 = []) := by
  constructor
  · intro D c q1 q3 r v hiqr hr hv hne
    have hq : q3 = q1 := by linarith
    refine outlier_mem_iff.mpr ⟨hr, v, hv, ?_⟩
    rcases lt_or_gt_of_ne hne with h | h
    · exact Or.inl (by rw [hiqr]; linarith)
    · exact Or.inr (by rw [hiqr, hq]; linarith)
  · intro D c q1 q3 v0 q hall hq hq1 hq3
    have hval : ∀ x ∈ colVals D c, x = q := by
      intro x hx
      obtain ⟨r, hr, hxr⟩ := List.mem_filterMap.mp hx
      rw [hall r hr, hq] at hxr
      exact (Option.some.inj hxr).symm
    have e1 : q1 = q := hval q1 hq1
    have e3 : q3 = q := hval q3 hq3
    subst e1
    subst e3
    simp only [outliersFor]
    refine List.filter_eq_nil_iff.mpr ?_
    intro r hr
    simp only [hall r hr, hq, decide_eq_true_eq]
    rintro (h | h) <;> linarith

/-- C7, witness: with collapsed fences at 0 a score of 5 is flagged; on a
column constantly 7 the outlier set is empty. -/
theorem C7_degenerate_iqr_witness :
    scoreRecord (Value.num 5) ∈
      outliersFor [scoreRecord (Value.num 5)] Column.nutriscore_score 0 0 ∧
    outliersFor [scoreRecord (Value.num 7), scoreRecord (Value.num 7)]
      Column.nutriscore_score 7 7 = [] :=
  ⟨C7_degenerate_iqr.1 [scoreRecord (Value.num 5)] Column.nutriscore_score 0 0
      (scoreRecord (Value.num 5)) 5 (by norm_num) (by decide) rfl (by norm_num),
   C7_degenerate_iqr.2 [scoreRecord (Value.num 7), scoreRecord (Value.num 7)]
      Column.nutriscore_score 7 7 (Value.num 7) 7 (by decide) rfl
      (by decide) (by decide)⟩

/-- C8: the program never computes any per-category average — the group key
`main_category` does not exist on `df_clean` (its creation at line 109 raises
`AnalysisException`) and `avg("energy_100g")` references a column the select
at line 60 never kept, so the aggregation of lines 127-131 raises instead of
producing `avg_energy = 150` or any other row; only `sugars_100g` and
`fiber_100g` of the referenced columns resolve. -/
theorem C8_aggregation_analysis_exception :
    (∀ D : List Record, statsAggregation D = none) ∧
    columnOf "main_category" = none ∧
    columnOf "energy_100g" = none ∧
    columnOf "sugars_100g" = some Column.sugars_100g ∧
    columnOf "fiber_100g" = some Column.fiber_100g := by
  exact ⟨fun D => rfl, by decide, by decide, by decide, by decide⟩

/-- C5: cleaning is idempotent — the per-record projection, cast and fills are
idempotent and duplicate removal of an already duplicate-free dataset is the
identity, so `df_clean (df_clean D) = df_clean D`. -/
theorem C5_clean_idempotent (D : List Record) :
    df_clean (df_clean D) = df_clean D := by
  show ((df_clean D).map cleanRecord).dedup = df_clean D
  have hfix : ∀ r ∈ df_clean D, cleanRecord r = r := by
    intro r hr
    obtain ⟨r0, _, rfl⟩ := mem_df_clean.mp hr
    exact cleanRecord_idem r0
  rw [List.map_congr_left hfix, show (fun a : Record => a) = id from rfl, List.map_id]
  exact List.dedup_idem

end DataCleansing
